import Mathlib

/-!
# Verification of the Diagnostic Analysis & Health Scoring Engine

Shallow embedding of `DiagnosticReportProcessor` from `main_program/app.py`
(PXE Telemetry & Diagnostics System).  The engine walks a report's artifact
tree, interprets tool output by substring matching, aggregates per-subsystem
scores (CPU, memory, disk, network), computes a weighted 0-100 health score
and derives recommendations.

Modelling conventions:
- File contents are Lean `String`s; Python's `'pat' in content` substring
  test becomes `List.isInfixOf` on the character lists.
- A present file either yields its text, or raises on read.  Python's
  handlers catch `IOError` only; a `UnicodeDecodeError` raised while
  decoding a present file is a `ValueError`, NOT an `IOError`, so it
  propagates.  The model keeps the two failure modes distinct.
- Python dicts (insertion ordered, key overwrite keeps position) are
  association lists with `dictSet` / `dictGet`.
- Python float arithmetic in `_calculate_health_score` is modelled with
  exact rationals (`ℚ`); all concrete inputs used below evaluate far from
  binary-rounding boundaries, where the double computation is exact or the
  error cannot change the truncated integer.  Python's `int()` truncates
  toward zero; every value it is applied to here is nonnegative, so it
  agrees with `Int.floor` (`⌊ ⌋`).
-/

/-- Outcome of opening and decoding a present artifact file. -/
inductive ReadResult where
  | ok (content : String)
  | ioErr
  | decodeErr
deriving DecidableEq, Repr

/-- A present file in the artifact tree: readable text, a file whose
`open`/`read` raises `IOError`, or a file whose bytes fail text decoding
(`UnicodeDecodeError`, a `ValueError`, not caught by `except IOError`). -/
inductive FileData where
  | text (content : String)
  | ioError
  | badEncoding
deriving DecidableEq, Repr

/-- `open(path); f.read()` on a present file. -/
def FileData.read : FileData → ReadResult
  | .text c => .ok c
  | .ioError => .ioErr
  | .badEncoding => .decodeErr

/-- The only Python exception that escapes the analyzers: a decode failure
on a present file (its handlers catch `IOError` only). -/
inductive PyError where
  | unicodeDecodeError
deriving DecidableEq, Repr

/-- Whether the first character list is a prefix of the second. -/
def leadsList : List Char → List Char → Bool
  | [], _ => true
  | _ :: _, [] => false
  | a :: as, b :: bs => a = b && leadsList as bs

/-- Whether `pat` occurs as a contiguous run inside `content`. -/
def containsSubList (pat : List Char) : List Char → Bool
  | [] => pat.isEmpty
  | c :: rest => leadsList pat (c :: rest) || containsSubList pat rest

/-- Python `'pat' in content` substring test. -/
def containsSub (pat content : String) : Bool :=
  containsSubList pat.toList content.toList

/-- Python dict lookup `d.get(k)` for an insertion-ordered assoc list. -/
def dictGet {α : Type} (k : String) : List (String × α) → Option α
  | [] => none
  | (k2, v) :: rest => if k2 = k then some v else dictGet k rest

/-- Python dict assignment `d[k] = v`: overwrite in place (keeping the
original insertion position) or append. -/
def dictSet {α : Type} (k : String) (v : α) : List (String × α) → List (String × α)
  | [] => [(k, v)]
  | (k2, v2) :: rest => if k2 = k then (k2, v) :: rest else (k2, v2) :: dictSet k v rest

/-- A leaf directory (a disk device or network interface directory):
its named regular files. -/
structure LeafDir where
  files : List (String × FileData)
deriving DecidableEq, Repr

/-- A subsystem directory under `performance/`: its named regular files
and its subdirectories, the latter listed in `iterdir()` order. -/
structure SubsysDir where
  files : List (String × FileData)
  subdirs : List (String × LeafDir)
deriving DecidableEq, Repr

/-- The `performance/` directory: which of the four subsystem
subdirectories exist. -/
structure PerfDir where
  cpu : Option SubsysDir
  memory : Option SubsysDir
  disk : Option SubsysDir
  network : Option SubsysDir
deriving DecidableEq, Repr

/-- The report's artifact root (`report_data['_path']`): whether a
`performance/` subtree exists there. -/
structure ArtifactRoot where
  performance : Option PerfDir
deriving DecidableEq, Repr

/-- A value in a result's `details` dict: either an outcome string or a
nested per-device dict. -/
inductive Detail where
  | str (s : String)
  | node (m : List (String × Detail))
deriving Repr

/-- One subsystem's analysis record `{'status': .., 'score': .., 'details': ..}`.
The default entries created by `_analyze_performance` carry no `details` key,
hence the `Option`. -/
structure SubsysResult where
  status : String
  score : Nat
  details : Option (List (String × Detail))
deriving Repr

/-- The default entry `{'status': 'unknown', 'score': 0}` that
`_analyze_performance` installs for every subsystem up front. -/
def unknownResult : SubsysResult := ⟨"unknown", 0, none⟩

/-- The repeated source pattern: if the named file exists, read it (an
`IOError` is caught and recorded as `'error'`; a decode failure
propagates), then award `pts` and record `okLabel` when the pattern
matches, else record `'failed'`.  `acc` is the running
`(score, details)` pair. -/
def fileCheck (files : List (String × FileData)) (fname : String)
    (pat : String → Bool) (pts : Nat) (key okLabel : String)
    (acc : Nat × List (String × Detail)) :
    Except PyError (Nat × List (String × Detail)) :=
  match dictGet fname files with
  | none => .ok acc
  | some fd =>
    match fd.read with
    | .ok content =>
      if pat content then .ok (acc.1 + pts, dictSet key (.str okLabel) acc.2)
      else .ok (acc.1, dictSet key (.str "failed") acc.2)
    | .ioErr => .ok (acc.1, dictSet key (.str "error") acc.2)
    | .decodeErr => .error .unicodeDecodeError

/-- The threshold classifier ending every analyzer:
`score >= goodT → 'good'`, else `score >= fairT → 'fair'`, else `'poor'`. -/
def classify (goodT fairT score : Nat) : String :=
  if score ≥ goodT then "good" else if score ≥ fairT then "fair" else "poor"

/-- `_analyze_cpu_tests`: `sysbench_cpu.txt` with `'execution time'` and
`stress_ng.txt` with `'completed'` contribute 25 points each;
thresholds 50/25. -/
def analyze_cpu_tests (d : SubsysDir) : Except PyError SubsysResult :=
  match fileCheck d.files "sysbench_cpu.txt" (containsSub "execution time")
      25 "sysbench" "completed" (0, []) with
  | .error e => .error e
  | .ok acc1 =>
    match fileCheck d.files "stress_ng.txt" (containsSub "completed")
        25 "stress_ng" "completed" acc1 with
    | .error e => .error e
    | .ok acc2 => .ok ⟨classify 50 25 acc2.1, acc2.1, some acc2.2⟩

/-- The memtester success test: content contains `'PASS'` and does not
contain `'FAIL'`. -/
def memtesterPat (content : String) : Bool :=
  containsSub "PASS" content && !(containsSub "FAIL" content)

/-- `_analyze_memory_tests`: `memtester.txt` passing contributes 50,
`stress_ng_memory.txt` with `'completed'` contributes 50; thresholds 75/50. -/
def analyze_memory_tests (d : SubsysDir) : Except PyError SubsysResult :=
  match fileCheck d.files "memtester.txt" memtesterPat 50 "memtester" "passed" (0, []) with
  | .error e => .error e
  | .ok acc1 =>
    match fileCheck d.files "stress_ng_memory.txt" (containsSub "completed")
        50 "stress_ng" "completed" acc1 with
    | .error e => .error e
    | .ok acc2 => .ok ⟨classify 75 50 acc2.1, acc2.1, some acc2.2⟩

/-- The SMART pass phrase matched verbatim by `_analyze_disk_tests`. -/
def smartPassPhrase : String :=
  "SMART overall-health self-assessment test result: PASSED"

/-- The per-device loop of `_analyze_disk_tests`: for each subdirectory,
`smart.txt` matching the SMART pass phrase adds 20 and `fio_randread.txt`
containing `'IOPS'` adds 15 to the one shared score; each device gets a
nested details dict. -/
def diskLoop (score : Nat) (details : List (String × Detail)) :
    List (String × LeafDir) → Except PyError (Nat × List (String × Detail))
  | [] => .ok (score, details)
  | (diskName, sub) :: rest =>
    match fileCheck sub.files "smart.txt" (containsSub smartPassPhrase)
        20 "smart" "passed" (score, []) with
    | .error e => .error e
    | .ok acc1 =>
      match fileCheck sub.files "fio_randread.txt" (containsSub "IOPS")
          15 "fio_read" "completed" acc1 with
      | .error e => .error e
      | .ok acc2 => diskLoop acc2.1 (dictSet diskName (.node acc2.2) details) rest

/-- `_analyze_disk_tests`: accumulate over all device subdirectories,
then classify with thresholds 50/25. -/
def analyze_disk_tests (d : SubsysDir) : Except PyError SubsysResult :=
  match diskLoop 0 [] d.subdirs with
  | .error e => .error e
  | .ok acc => .ok ⟨classify 50 25 acc.1, acc.1, some acc.2⟩

/-- The interface loop of `_analyze_network_tests`: every subdirectory
other than `lo` whose `ethtool.txt` exists (existence only, never read)
adds 25 and is recorded as `'configured'`. -/
def netIfaceLoop (score : Nat) (details : List (String × Detail)) :
    List (String × LeafDir) → Nat × List (String × Detail)
  | [] => (score, details)
  | (name, sub) :: rest =>
    if name = "lo" then netIfaceLoop score details rest
    else if (dictGet "ethtool.txt" sub.files).isSome then
      netIfaceLoop (score + 25) (dictSet name (.str "configured") details) rest
    else netIfaceLoop score details rest

/-- `_analyze_network_tests`: `iperf3_localhost.txt` containing both
`'receiver'` and `'sender'` contributes 50, then the interface loop;
thresholds 75/50. -/
def analyze_network_tests (d : SubsysDir) : Except PyError SubsysResult :=
  match fileCheck d.files "iperf3_localhost.txt"
      (fun c => containsSub "receiver" c && containsSub "sender" c)
      50 "iperf3" "completed" (0, []) with
  | .error e => .error e
  | .ok acc1 =>
    let acc2 := netIfaceLoop acc1.1 acc1.2 d.subdirs
    .ok ⟨classify 75 50 acc2.1, acc2.1, some acc2.2⟩

/-- The initial aggregate of `_analyze_performance`: every subsystem key
present, defaulted to `{'status': 'unknown', 'score': 0}`. -/
def perfInit : List (String × SubsysResult) :=
  [("cpu", unknownResult), ("memory", unknownResult),
   ("disk", unknownResult), ("network", unknownResult)]

/-- One conditional block of `_analyze_performance`: if the subsystem's
directory exists, run its analyzer and overwrite the default entry. -/
def updateIfDir (dir? : Option SubsysDir)
    (analyzer : SubsysDir → Except PyError SubsysResult) (key : String)
    (a : List (String × SubsysResult)) :
    Except PyError (List (String × SubsysResult)) :=
  match dir? with
  | none => .ok a
  | some d =>
    match analyzer d with
    | .error e => .error e
    | .ok r => .ok (dictSet key r a)

/-- `_analyze_performance`: start from the all-`unknown` aggregate and run
each analyzer whose directory exists, in the order cpu, memory, disk,
network. -/
def analyze_performance (p : PerfDir) : Except PyError (List (String × SubsysResult)) :=
  match updateIfDir p.cpu analyze_cpu_tests "cpu" perfInit with
  | .error e => .error e
  | .ok a1 =>
    match updateIfDir p.memory analyze_memory_tests "memory" a1 with
    | .error e => .error e
    | .ok a2 =>
      match updateIfDir p.disk analyze_disk_tests "disk" a2 with
      | .error e => .error e
      | .ok a3 => updateIfDir p.network analyze_network_tests "network" a3

/-- The `system_info` mapping of a report; every field may be absent. -/
structure SystemInfo where
  cpu_count : Option Int
  memory_gb : Option ℚ
  architecture : Option String
  kernel : Option String
deriving DecidableEq, Repr

/-- A decoded report as `process_report` consumes it; every field may be
absent (`report_data.get` with defaults).  The filesystem at
`report_data['_path']` is passed to the engine separately as an
`ArtifactRoot`. -/
structure Report where
  hostname : Option String
  timestamp : Option String
  system_info : Option SystemInfo
deriving DecidableEq, Repr

/-- The `analysis['system']` block: `system_info` passed through with
defaults `cpu_count=0`, `memory_gb=0`, `architecture='unknown'`,
`kernel='unknown'`. -/
structure SystemBlock where
  cpu_count : Int
  memory_gb : ℚ
  architecture : String
  kernel : String
deriving DecidableEq, Repr

/-- Build the `system` block from `report_data.get('system_info', {})`. -/
def buildSystemBlock (si : Option SystemInfo) : SystemBlock :=
  let s := si.getD ⟨none, none, none, none⟩
  ⟨s.cpu_count.getD 0, s.memory_gb.getD 0,
   s.architecture.getD "unknown", s.kernel.getD "unknown"⟩

/-- The `analysis` dict handed to the scorer and the recommendation
generator: an optional `system` block and an optional `performance`
aggregate. -/
structure Analysis where
  system : Option SystemBlock
  performance : Option (List (String × SubsysResult))
deriving Repr

/-- One step of the component loop in `_calculate_health_score`: a
component present in the performance aggregate adds
`score / 100 * 18.75` to the earned total and `18.75` to the maximum. -/
def healthStep (perf : List (String × SubsysResult)) (acc : ℚ × ℚ)
    (component : String) : ℚ × ℚ :=
  match dictGet component perf with
  | some r => (acc.1 + (r.score : ℚ) / 100 * 18.75, acc.2 + 18.75)
  | none => acc

/-- The `(total_score, max_score)` accumulator pair of
`_calculate_health_score`: 25/25 for a present `system` block, then the
loop over `['cpu', 'memory', 'disk', 'network']` with
`performance = analysis.get('performance', {})`. -/
def healthTotals (a : Analysis) : ℚ × ℚ :=
  List.foldl (healthStep (a.performance.getD []))
    (if a.system.isSome then ((25 : ℚ), (25 : ℚ)) else (0, 0))
    ["cpu", "memory", "disk", "network"]

/-- `_calculate_health_score`: `int((total_score / max_score) * 100)`, or
`0` when `max_score == 0`.  Both totals are nonnegative, so Python's
truncation toward zero is the floor. -/
def calculate_health_score (a : Analysis) : ℤ :=
  if (healthTotals a).2 = 0 then 0
  else ⌊(healthTotals a).1 / (healthTotals a).2 * 100⌋

/-- `performance.get(name, {}).get('status')`: the status of a subsystem
in the aggregate, `none` when the key is missing. -/
def subsystemStatus (perf : List (String × SubsysResult)) (name : String) :
    Option String :=
  (dictGet name perf).map (fun r => r.status)

/-- The fixed advisory emitted for a poor CPU. -/
def cpuAdvice : String :=
  "CPU performance is poor. Consider checking for thermal throttling or background processes."

/-- The fixed advisory emitted for poor memory. -/
def memoryAdvice : String :=
  "Memory tests failed. Check for faulty RAM modules or memory configuration."

/-- The fixed advisory emitted for a poor disk. -/
def diskAdvice : String :=
  "Disk performance is poor. Check SMART status and consider replacing failing drives."

/-- The fixed advisory emitted for a poor network. -/
def networkAdvice : String :=
  "Network performance is poor. Check cable connections and switch configuration."

/-- The generic message emitted when no advisory was generated. -/
def healthyAdvice : String :=
  "System appears to be healthy. Continue monitoring for any changes."

/-- `_generate_recommendations`: one fixed advisory per subsystem whose
status equals `'poor'`, in the order cpu, memory, disk, network; the
generic message when the list would otherwise be empty. -/
def generate_recommendations (a : Analysis) : List String :=
  let performance := a.performance.getD []
  let recommendations : List String := []
  let recommendations :=
    if subsystemStatus performance "cpu" = some "poor"
    then recommendations ++ [cpuAdvice] else recommendations
  let recommendations :=
    if subsystemStatus performance "memory" = some "poor"
    then recommendations ++ [memoryAdvice] else recommendations
  let recommendations :=
    if subsystemStatus performance "disk" = some "poor"
    then recommendations ++ [diskAdvice] else recommendations
  let recommendations :=
    if subsystemStatus performance "network" = some "poor"
    then recommendations ++ [networkAdvice] else recommendations
  if recommendations.isEmpty then [healthyAdvice] else recommendations

/-- The record returned by `process_report`. -/
structure Processed where
  hostname : String
  timestamp : String
  processed_at : String
  analysis : Analysis
  health_score : ℤ
  issues : List String
  recommendations : List String
deriving Repr

/-- The `performance` step of `process_report`: analyze the
`performance/` subtree when it exists; a decode failure inside an
analyzer propagates. -/
def perfAnalysisOpt (tree : ArtifactRoot) :
    Except PyError (Option (List (String × SubsysResult))) :=
  match tree.performance with
  | none => .ok none
  | some pd =>
    match analyze_performance pd with
    | .error e => .error e
    | .ok l => .ok (some l)

/-- `process_report`: build the `system` block unconditionally, analyze
the `performance/` subtree when present, then compute health score and
recommendations.  `now` stands for `datetime.utcnow().isoformat()`. -/
def process_report (now : String) (rd : Report) (tree : ArtifactRoot) :
    Except PyError Processed :=
  let systemBlock := buildSystemBlock rd.system_info
  match perfAnalysisOpt tree with
  | .error e => .error e
  | .ok perfOpt =>
    let analysis : Analysis := ⟨some systemBlock, perfOpt⟩
    .ok { hostname := rd.hostname.getD "unknown"
        , timestamp := rd.timestamp.getD ""
        , processed_at := now
        , analysis := analysis
        , health_score := calculate_health_score analysis
        , issues := []
        , recommendations := generate_recommendations analysis }

/-! ## Helper lemmas on the dict model -/

theorem dictGet_dictSet_same {α : Type} (k : String) (v : α) (l : List (String × α)) :
    dictGet k (dictSet k v l) = some v := by
  induction l with
  | nil => simp [dictGet, dictSet]
  | cons hd tl ih =>
    obtain ⟨k2, v2⟩ := hd
    by_cases hk : k2 = k <;> simp [dictGet, dictSet, hk, ih]

theorem dictGet_dictSet_ne {α : Type} (k k2 : String) (v : α) (l : List (String × α))
    (h : k2 ≠ k) : dictGet k (dictSet k2 v l) = dictGet k l := by
  induction l with
  | nil => simp [dictGet, dictSet, h]
  | cons hd tl ih =>
    obtain ⟨k3, v3⟩ := hd
    by_cases hk : k3 = k2
    · subst hk; simp [dictGet, dictSet, h]
    · by_cases hk3 : k3 = k <;> simp [dictGet, dictSet, hk, hk3, Ne.symm h, ih]

/-! ## Helper lemmas on the repeated file-check pattern -/

/-- Whether a check succeeds: the file is present, readable, and its
content matches the pattern. -/
def fileCheckPass (files : List (String × FileData)) (fname : String)
    (pat : String → Bool) : Bool :=
  match dictGet fname files with
  | some fd =>
    match fd.read with
    | .ok c => pat c
    | .ioErr => false
    | .decodeErr => false
  | none => false

theorem fileCheck_ok_score (files : List (String × FileData)) (fname : String)
    (pat : String → Bool) (pts : Nat) (key okLabel : String)
    (acc acc2 : Nat × List (String × Detail))
    (h : fileCheck files fname pat pts key okLabel acc = .ok acc2) :
    acc2.1 = acc.1 + (if fileCheckPass files fname pat then pts else 0) := by
  unfold fileCheck at h
  unfold fileCheckPass
  cases hg : dictGet fname files with
  | none =>
    simp only [hg] at h ⊢
    cases h
    simp
  | some fd =>
    cases fd with
    | text c =>
      by_cases hp : pat c <;>
        simp only [hg, FileData.read, hp, if_true, if_false, Bool.false_eq_true] at h ⊢ <;>
        cases h <;> simp
    | ioError =>
      simp only [hg, FileData.read] at h ⊢
      cases h
      simp
    | badEncoding =>
      simp only [hg, FileData.read] at h
      cases h

theorem fileCheck_ok_score_le (files : List (String × FileData)) (fname : String)
    (pat : String → Bool) (pts : Nat) (key okLabel : String)
    (acc acc2 : Nat × List (String × Detail))
    (h : fileCheck files fname pat pts key okLabel acc = .ok acc2) :
    acc2.1 ≤ acc.1 + pts := by
  rw [fileCheck_ok_score files fname pat pts key okLabel acc acc2 h]
  split <;> omega

/-! ## The threshold classifier -/

theorem classify_cases (goodT fairT score : Nat) :
    classify goodT fairT score = "good" ∨ classify goodT fairT score = "fair" ∨
      classify goodT fairT score = "poor" := by
  unfold classify
  split
  · exact Or.inl rfl
  · split
    · exact Or.inr (Or.inl rfl)
    · exact Or.inr (Or.inr rfl)

theorem classify_ne_unknown (goodT fairT score : Nat) :
    classify goodT fairT score ≠ "unknown" := by
  rcases classify_cases goodT fairT score with h | h | h <;> rw [h] <;> decide

/-! ## Shape of each analyzer's successful result -/

theorem analyze_cpu_tests_ok (d : SubsysDir) (r : SubsysResult)
    (h : analyze_cpu_tests d = .ok r) :
    r.status = classify 50 25 r.score ∧ r.score ≤ 50 ∧ r.details ≠ none := by
  unfold analyze_cpu_tests at h
  cases h1 : fileCheck d.files "sysbench_cpu.txt" (containsSub "execution time")
      25 "sysbench" "completed" (0, []) with
  | error e => simp only [h1] at h; cases h
  | ok acc1 =>
    simp only [h1] at h
    cases h2 : fileCheck d.files "stress_ng.txt" (containsSub "completed")
        25 "stress_ng" "completed" acc1 with
    | error e => simp only [h2] at h; cases h
    | ok acc2 =>
      simp only [h2] at h
      injection h with h
      subst h
      refine ⟨rfl, ?_, by simp⟩
      have b1 := fileCheck_ok_score_le _ _ _ _ _ _ _ _ h1
      have b2 := fileCheck_ok_score_le _ _ _ _ _ _ _ _ h2
      simp only at b1
      show acc2.1 ≤ 50
      omega

theorem analyze_memory_tests_ok (d : SubsysDir) (r : SubsysResult)
    (h : analyze_memory_tests d = .ok r) :
    r.status = classify 75 50 r.score ∧ r.score ≤ 100 ∧ r.details ≠ none := by
  unfold analyze_memory_tests at h
  cases h1 : fileCheck d.files "memtester.txt" memtesterPat 50 "memtester" "passed" (0, []) with
  | error e => simp only [h1] at h; cases h
  | ok acc1 =>
    simp only [h1] at h
    cases h2 : fileCheck d.files "stress_ng_memory.txt" (containsSub "completed")
        50 "stress_ng" "completed" acc1 with
    | error e => simp only [h2] at h; cases h
    | ok acc2 =>
      simp only [h2] at h
      injection h with h
      subst h
      refine ⟨rfl, ?_, by simp⟩
      have b1 := fileCheck_ok_score_le _ _ _ _ _ _ _ _ h1
      have b2 := fileCheck_ok_score_le _ _ _ _ _ _ _ _ h2
      simp only at b1
      show acc2.1 ≤ 100
      omega

theorem analyze_disk_tests_ok (d : SubsysDir) (r : SubsysResult)
    (h : analyze_disk_tests d = .ok r) :
    r.status = classify 50 25 r.score ∧ r.details ≠ none := by
  unfold analyze_disk_tests at h
  cases h1 : diskLoop 0 [] d.subdirs with
  | error e => simp only [h1] at h; cases h
  | ok acc =>
    simp only [h1] at h
    injection h with h
    subst h
    exact ⟨rfl, by simp⟩

theorem analyze_network_tests_ok (d : SubsysDir) (r : SubsysResult)
    (h : analyze_network_tests d = .ok r) :
    r.status = classify 75 50 r.score ∧ r.details ≠ none := by
  unfold analyze_network_tests at h
  cases h1 : fileCheck d.files "iperf3_localhost.txt"
      (fun c => containsSub "receiver" c && containsSub "sender" c)
      50 "iperf3" "completed" (0, []) with
  | error e => simp only [h1] at h; cases h
  | ok acc1 =>
    simp only [h1] at h
    injection h with h
    subst h
    exact ⟨rfl, by simp⟩

/-! ## What the aggregate contains, key by key -/

theorem updateIfDir_ok (o : Option SubsysDir)
    (an : SubsysDir → Except PyError SubsysResult) (key : String)
    (a a2 : List (String × SubsysResult))
    (h : updateIfDir o an key a = .ok a2) :
    (o = none ∧ a2 = a) ∨
      (∃ d r, o = some d ∧ an d = .ok r ∧ a2 = dictSet key r a) := by
  cases o with
  | none =>
    left
    unfold updateIfDir at h
    injection h with h
    exact ⟨rfl, h.symm⟩
  | some d =>
    right
    unfold updateIfDir at h
    cases hr : an d with
    | error e => simp only [hr] at h; cases h
    | ok r =>
      simp only [hr] at h
      injection h with h
      exact ⟨d, r, rfl, hr, h.symm⟩

theorem updateIfDir_ok_get_other (o : Option SubsysDir)
    (an : SubsysDir → Except PyError SubsysResult) (key : String)
    (a a2 : List (String × SubsysResult)) (k : String)
    (h : updateIfDir o an key a = .ok a2) (hk : k ≠ key) :
    dictGet k a2 = dictGet k a := by
  rcases updateIfDir_ok o an key a a2 h with ⟨_, rfl⟩ | ⟨d, r, _, _, rfl⟩
  · rfl
  · exact dictGet_dictSet_ne k key r a (Ne.symm hk)

theorem updateIfDir_ok_get_self (o : Option SubsysDir)
    (an : SubsysDir → Except PyError SubsysResult) (key : String)
    (a a2 : List (String × SubsysResult))
    (h : updateIfDir o an key a = .ok a2) :
    (o = none → dictGet key a2 = dictGet key a) ∧
      (∀ d, o = some d → ∃ r, an d = .ok r ∧ dictGet key a2 = some r) := by
  rcases updateIfDir_ok o an key a a2 h with ⟨ho, rfl⟩ | ⟨d, r, ho, hr, rfl⟩
  · constructor
    · intro _
      rfl
    · intro d hd
      rw [ho] at hd
      cases hd
  · constructor
    · intro hn
      rw [ho] at hn
      cases hn
    · intro d2 hd
      rw [ho] at hd
      injection hd with hd
      subst hd
      exact ⟨r, hr, dictGet_dictSet_same key r a⟩

/-- Master lemma for `_analyze_performance`: for each of the four
subsystems, the aggregate maps its key to the default
`{'status': 'unknown', 'score': 0}` when the directory is absent, and to
the analyzer's result when it is present. -/
theorem analyze_performance_get (p : PerfDir) (l : List (String × SubsysResult))
    (h : analyze_performance p = .ok l) :
    ((p.cpu = none → dictGet "cpu" l = some unknownResult) ∧
      (∀ d, p.cpu = some d → ∃ r, analyze_cpu_tests d = .ok r ∧ dictGet "cpu" l = some r)) ∧
    ((p.memory = none → dictGet "memory" l = some unknownResult) ∧
      (∀ d, p.memory = some d → ∃ r, analyze_memory_tests d = .ok r ∧ dictGet "memory" l = some r)) ∧
    ((p.disk = none → dictGet "disk" l = some unknownResult) ∧
      (∀ d, p.disk = some d → ∃ r, analyze_disk_tests d = .ok r ∧ dictGet "disk" l = some r)) ∧
    ((p.network = none → dictGet "network" l = some unknownResult) ∧
      (∀ d, p.network = some d → ∃ r, analyze_network_tests d = .ok r ∧ dictGet "network" l = some r)) := by
  unfold analyze_performance at h
  cases h1 : updateIfDir p.cpu analyze_cpu_tests "cpu" perfInit with
  | error e => simp only [h1] at h; cases h
  | ok a1 =>
    simp only [h1] at h
    cases h2 : updateIfDir p.memory analyze_memory_tests "memory" a1 with
    | error e => simp only [h2] at h; cases h
    | ok a2 =>
      simp only [h2] at h
      cases h3 : updateIfDir p.disk analyze_disk_tests "disk" a2 with
      | error e => simp only [h3] at h; cases h
      | ok a3 =>
        simp only [h3] at h
        have g4 := updateIfDir_ok_get_self _ _ _ _ _ h
        have g3 := updateIfDir_ok_get_self _ _ _ _ _ h3
        have g2 := updateIfDir_ok_get_self _ _ _ _ _ h2
        have g1 := updateIfDir_ok_get_self _ _ _ _ _ h1
        have cpu4 := updateIfDir_ok_get_other _ _ _ _ _ "cpu" h (by decide)
        have cpu3 := updateIfDir_ok_get_other _ _ _ _ _ "cpu" h3 (by decide)
        have cpu2 := updateIfDir_ok_get_other _ _ _ _ _ "cpu" h2 (by decide)
        have mem4 := updateIfDir_ok_get_other _ _ _ _ _ "memory" h (by decide)
        have mem3 := updateIfDir_ok_get_other _ _ _ _ _ "memory" h3 (by decide)
        have dsk4 := updateIfDir_ok_get_other _ _ _ _ _ "disk" h (by decide)
        refine ⟨⟨?_, ?_⟩, ⟨?_, ?_⟩, ⟨?_, ?_⟩, ⟨?_, ?_⟩⟩
        · intro hn
          rw [cpu4, cpu3, cpu2, g1.1 hn]
          rfl
        · intro d hd
          obtain ⟨r, hr, hget⟩ := g1.2 d hd
          exact ⟨r, hr, by rw [cpu4, cpu3, cpu2, hget]⟩
        · intro hn
          rw [mem4, mem3, g2.1 hn, updateIfDir_ok_get_other _ _ _ _ _ "memory" h1 (by decide)]
          rfl
        · intro d hd
          obtain ⟨r, hr, hget⟩ := g2.2 d hd
          exact ⟨r, hr, by rw [mem4, mem3, hget]⟩
        · intro hn
          rw [dsk4, g3.1 hn, updateIfDir_ok_get_other _ _ _ _ _ "disk" h2 (by decide),
            updateIfDir_ok_get_other _ _ _ _ _ "disk" h1 (by decide)]
          rfl
        · intro d hd
          obtain ⟨r, hr, hget⟩ := g3.2 d hd
          exact ⟨r, hr, by rw [dsk4, hget]⟩
        · intro hn
          rw [g4.1 hn, updateIfDir_ok_get_other _ _ _ _ _ "network" h3 (by decide),
            updateIfDir_ok_get_other _ _ _ _ _ "network" h2 (by decide),
            updateIfDir_ok_get_other _ _ _ _ _ "network" h1 (by decide)]
          rfl
        · intro d hd
          obtain ⟨r, hr, hget⟩ := g4.2 d hd
          exact ⟨r, hr, hget⟩

/-! ## Invariants of the health-score accumulator -/

theorem healthStep_fst_nonneg (perf : List (String × SubsysResult)) (acc : ℚ × ℚ)
    (c : String) (h : 0 ≤ acc.1) : 0 ≤ (healthStep perf acc c).1 := by
  unfold healthStep
  cases hg : dictGet c perf with
  | none => simpa
  | some r =>
    simp only
    have hp : (0 : ℚ) ≤ (r.score : ℚ) / 100 * 18.75 := by positivity
    linarith

theorem healthStep_snd_mono (perf : List (String × SubsysResult)) (acc : ℚ × ℚ)
    (c : String) : acc.2 ≤ (healthStep perf acc c).2 := by
  unfold healthStep
  cases hg : dictGet c perf with
  | none => simp
  | some r =>
    simp only
    norm_num

theorem healthStep_le (perf : List (String × SubsysResult)) (acc : ℚ × ℚ) (c : String)
    (hb : ∀ k v, dictGet k perf = some v → v.score ≤ 100)
    (h : acc.1 ≤ acc.2) : (healthStep perf acc c).1 ≤ (healthStep perf acc c).2 := by
  unfold healthStep
  cases hg : dictGet c perf with
  | none => simpa
  | some r =>
    simp only
    have hs : (r.score : ℚ) ≤ 100 := by exact_mod_cast hb c r hg
    have hsn : (0 : ℚ) ≤ (r.score : ℚ) := by positivity
    have hq : (r.score : ℚ) / 100 * 18.75 ≤ 18.75 := by nlinarith
    linarith

theorem foldl_healthStep_fst_nonneg (perf : List (String × SubsysResult))
    (cs : List String) (acc : ℚ × ℚ) (h : 0 ≤ acc.1) :
    0 ≤ (List.foldl (healthStep perf) acc cs).1 := by
  induction cs generalizing acc with
  | nil => simpa
  | cons c cs ih => exact ih _ (healthStep_fst_nonneg perf acc c h)

theorem foldl_healthStep_snd_mono (perf : List (String × SubsysResult))
    (cs : List String) (acc : ℚ × ℚ) :
    acc.2 ≤ (List.foldl (healthStep perf) acc cs).2 := by
  induction cs generalizing acc with
  | nil => simp
  | cons c cs ih => exact le_trans (healthStep_snd_mono perf acc c) (ih _)

theorem foldl_healthStep_le (perf : List (String × SubsysResult))
    (cs : List String) (acc : ℚ × ℚ)
    (hb : ∀ k v, dictGet k perf = some v → v.score ≤ 100)
    (h : acc.1 ≤ acc.2) :
    (List.foldl (healthStep perf) acc cs).1 ≤ (List.foldl (healthStep perf) acc cs).2 := by
  induction cs generalizing acc with
  | nil => simpa
  | cons c cs ih => exact ih _ (healthStep_le perf acc c hb h)

theorem foldl_healthStep_of_none (perf : List (String × SubsysResult))
    (cs : List String) (acc : ℚ × ℚ)
    (hall : ∀ c ∈ cs, dictGet c perf = none) :
    List.foldl (healthStep perf) acc cs = acc := by
  induction cs generalizing acc with
  | nil => rfl
  | cons c cs ih =>
    have hc : dictGet c perf = none := hall c (by simp)
    have hstep : healthStep perf acc c = acc := by unfold healthStep; rw [hc]
    rw [List.foldl_cons, hstep]
    exact ih _ (fun c2 h2 => hall c2 (by simp [h2]))

theorem foldl_healthStep_snd_pos (perf : List (String × SubsysResult))
    (cs : List String) (acc : ℚ × ℚ) (hnn : 0 ≤ acc.2)
    (hex : ∃ c ∈ cs, (dictGet c perf).isSome = true) :
    0 < (List.foldl (healthStep perf) acc cs).2 := by
  induction cs generalizing acc with
  | nil => rcases hex with ⟨c, hc, _⟩; cases hc
  | cons c cs ih =>
    rcases hex with ⟨c2, hc2, hsome⟩
    rcases List.mem_cons.mp hc2 with rfl | hmem
    · have h1 : 0 < (healthStep perf acc c2).2 := by
        unfold healthStep
        cases hg : dictGet c2 perf with
        | none => rw [hg] at hsome; cases hsome
        | some r => simp only; linarith
      exact lt_of_lt_of_le h1 (foldl_healthStep_snd_mono perf cs _)
    · have h2 : 0 ≤ (healthStep perf acc c).2 :=
        le_trans hnn (healthStep_snd_mono perf acc c)
      exact ih _ h2 ⟨c2, hmem, hsome⟩

/-- The health-score base pair is componentwise nonnegative with first
component at most the second. -/
theorem healthTotals_invariants (a : Analysis) :
    0 ≤ (healthTotals a).1 ∧ 0 ≤ (healthTotals a).2 := by
  unfold healthTotals
  constructor
  · apply foldl_healthStep_fst_nonneg
    split <;> norm_num
  · apply le_trans _ (foldl_healthStep_snd_mono _ _ _)
    split <;> norm_num

theorem healthTotals_le (a : Analysis)
    (hb : ∀ k v, dictGet k (a.performance.getD []) = some v → v.score ≤ 100) :
    (healthTotals a).1 ≤ (healthTotals a).2 := by
  unfold healthTotals
  apply foldl_healthStep_le _ _ _ hb
  split <;> norm_num

/-- `_calculate_health_score` never returns a negative value. -/
theorem calculate_health_score_nonneg (a : Analysis) :
    0 ≤ calculate_health_score a := by
  unfold calculate_health_score
  by_cases h : (healthTotals a).2 = 0
  · simp [h]
  · rw [if_neg h]
    obtain ⟨h1, h2⟩ := healthTotals_invariants a
    have hq : 0 ≤ (healthTotals a).1 / (healthTotals a).2 * 100 := by positivity
    exact Int.floor_nonneg.mpr hq

/-- `_calculate_health_score` is at most 100 provided every subsystem
score appearing in the aggregate is at most 100. -/
theorem calculate_health_score_le (a : Analysis)
    (hb : ∀ k v, dictGet k (a.performance.getD []) = some v → v.score ≤ 100) :
    calculate_health_score a ≤ 100 := by
  unfold calculate_health_score
  by_cases h : (healthTotals a).2 = 0
  · simp [h]
  · rw [if_neg h]
    obtain ⟨h1, h2⟩ := healthTotals_invariants a
    have hpos : 0 < (healthTotals a).2 := lt_of_le_of_ne h2 (Ne.symm h)
    have hle : (healthTotals a).1 / (healthTotals a).2 ≤ 1 :=
      (div_le_one hpos).mpr (healthTotals_le a hb)
    have hr : (healthTotals a).1 / (healthTotals a).2 * 100 ≤ 100 := by nlinarith
    calc ⌊(healthTotals a).1 / (healthTotals a).2 * 100⌋ ≤ ⌊(100 : ℚ)⌋ :=
        Int.floor_le_floor hr
      _ = 100 := by norm_num

/-! ## Unpacking a successful `process_report` -/

theorem process_report_ok (now : String) (rd : Report) (tree : ArtifactRoot)
    (p : Processed) (h : process_report now rd tree = .ok p) :
    p.analysis.system = some (buildSystemBlock rd.system_info) ∧
    p.health_score = calculate_health_score p.analysis ∧
    p.recommendations = generate_recommendations p.analysis := by
  unfold process_report at h
  cases hpa : perfAnalysisOpt tree with
  | error e => simp only [hpa] at h; cases h
  | ok po =>
    simp only [hpa] at h
    injection h with h
    subst h
    exact ⟨rfl, rfl, rfl⟩

/-! ## Concrete example inputs and projections -/

/-- Project the aggregate out of a successful analysis (empty on error). -/
def aggOf (r : Except PyError (List (String × SubsysResult))) :
    List (String × SubsysResult) :=
  match r with
  | .ok l => l
  | .error _ => []

/-- Project the score out of a successful subsystem analysis (0 on error). -/
def scoreOf (r : Except PyError SubsysResult) : Nat :=
  match r with
  | .ok x => x.score
  | .error _ => 0

/-- Project the health score out of a successful report analysis
(-1 on error). -/
def healthOf (r : Except PyError Processed) : ℤ :=
  match r with
  | .ok p => p.health_score
  | .error _ => -1

def exSystemInfo : SystemInfo := ⟨some 4, some 8, some "x86_64", some "6.1.0"⟩

def exReport : Report := ⟨some "node1", some "2024-01-01T00:00:00", some exSystemInfo⟩

def exSystemBlock : SystemBlock := buildSystemBlock (some exSystemInfo)

def emptySubsys : SubsysDir := ⟨[], []⟩

/-- A cpu directory whose sysbench output completed. -/
def cpuSubsysEx : SubsysDir :=
  ⟨[("sysbench_cpu.txt", FileData.text "total execution time: 3.2s")], []⟩

/-- The cpu analyzer's result on `cpuSubsysEx`. -/
def cpuFairResult : SubsysResult :=
  ⟨"fair", 25, some [("sysbench", Detail.str "completed")]⟩

/-- A performance tree with only a cpu directory. -/
def cpuOnlyPerf : PerfDir := ⟨some cpuSubsysEx, none, none, none⟩

/-- The aggregate produced for `cpuOnlyPerf`. -/
def cpuOnlyAgg : List (String × SubsysResult) :=
  [("cpu", cpuFairResult), ("memory", unknownResult),
   ("disk", unknownResult), ("network", unknownResult)]

/-- A performance tree with an empty cpu directory and no disk directory. -/
def perfNoDisk : PerfDir := ⟨some emptySubsys, none, none, none⟩

/-- The aggregate produced for `perfNoDisk`. -/
def noDiskAgg : List (String × SubsysResult) :=
  [("cpu", ⟨"poor", 0, some []⟩), ("memory", unknownResult),
   ("disk", unknownResult), ("network", unknownResult)]

/-- A disk device directory passing both the SMART and the fio check. -/
def goodDisk : LeafDir :=
  ⟨[("smart.txt", FileData.text smartPassPhrase),
    ("fio_randread.txt", FileData.text "read: IOPS=85300")]⟩

/-- A disk subsystem directory with three passing devices. -/
def disk3 : SubsysDir := ⟨[], [("sda", goodDisk), ("sdb", goodDisk), ("sdc", goodDisk)]⟩

/-- A disk subsystem directory with twelve passing devices. -/
def disk12 : SubsysDir :=
  ⟨[], [("d01", goodDisk), ("d02", goodDisk), ("d03", goodDisk), ("d04", goodDisk),
        ("d05", goodDisk), ("d06", goodDisk), ("d07", goodDisk), ("d08", goodDisk),
        ("d09", goodDisk), ("d10", goodDisk), ("d11", goodDisk), ("d12", goodDisk)]⟩

def perfDisk12 : PerfDir := ⟨none, none, some disk12, none⟩

def disk12Agg : List (String × SubsysResult) := aggOf (analyze_performance perfDisk12)

def disk12Result : SubsysResult := (dictGet "disk" disk12Agg).getD unknownResult

/-- A memory directory whose memtester output is just `PASS`. -/
def memPassOnly : SubsysDir := ⟨[("memtester.txt", FileData.text "PASS")], []⟩

/-- A cpu directory whose sysbench output fails text decoding. -/
def cpuDecodeDir : SubsysDir := ⟨[("sysbench_cpu.txt", FileData.badEncoding)], []⟩

/-- A cpu directory where both artifact reads raise `IOError`. -/
def ioErrCpuDir : SubsysDir :=
  ⟨[("sysbench_cpu.txt", FileData.ioError), ("stress_ng.txt", FileData.ioError)], []⟩

def decodeTree : ArtifactRoot := ⟨some ⟨some cpuDecodeDir, none, none, none⟩⟩

def treeCpuOnly : ArtifactRoot := ⟨some cpuOnlyPerf⟩

def treeNoPerf : ArtifactRoot := ⟨none⟩

def treeDisk12 : ArtifactRoot := ⟨some perfDisk12⟩

/-! ## Claim C1 -/

/-- C1, counterexample.  The claim says a subsystem whose directory is
absent is omitted from the aggregate.  On a performance tree whose disk
directory is absent, the code still maps the `disk` key to the defaulted
zero-score result `{'status': 'unknown', 'score': 0}`: the key is not
omitted. -/
theorem C1_counterexample :
    perfNoDisk.disk = none ∧
    dictGet "disk" (aggOf (analyze_performance perfNoDisk)) = some unknownResult ∧
    unknownResult.status = "unknown" ∧ unknownResult.score = 0 :=
  ⟨rfl, rfl, rfl, rfl⟩

/-- C1, amended: for every performance tree, a subsystem whose directory
is absent still appears in the aggregate, defaulted to the zero-score
result `{'status': 'unknown', 'score': 0}` (with no `details` key),
rather than being omitted. -/
theorem C1_amended_absent_defaulted (p : PerfDir) (l : List (String × SubsysResult))
    (h : analyze_performance p = .ok l) :
    (p.cpu = none → dictGet "cpu" l = some unknownResult) ∧
    (p.memory = none → dictGet "memory" l = some unknownResult) ∧
    (p.disk = none → dictGet "disk" l = some unknownResult) ∧
    (p.network = none → dictGet "network" l = some unknownResult) := by
  obtain ⟨⟨c1, _⟩, ⟨m1, _⟩, ⟨d1, _⟩, ⟨n1, _⟩⟩ := analyze_performance_get p l h
  exact ⟨c1, m1, d1, n1⟩

theorem C1_witness : dictGet "disk" noDiskAgg = some unknownResult :=
  (C1_amended_absent_defaulted perfNoDisk noDiskAgg rfl).2.2.1 rfl

/-! ## Claim C3 -/

/-- C3, counterexample.  The claim says every subsystem score lies in
[0, 100].  A disk directory with three devices each passing SMART (20)
and fio (15) accumulates 3 × 35 = 105 > 100. -/
theorem C3_counterexample :
    scoreOf (analyze_disk_tests disk3) = 105 ∧ (100 : Nat) < 105 :=
  ⟨rfl, by norm_num⟩

/-- C3, amended: scores are `Nat`s, hence nonnegative; the cpu analyzer
never returns more than 50 and the memory analyzer never more than 100,
but the disk and network analyzers are uncapped and can exceed 100 when
enough device subdirectories pass their checks. -/
theorem C3_amended_cpu_memory_bounded (d1 d2 : SubsysDir) (r1 r2 : SubsysResult)
    (h1 : analyze_cpu_tests d1 = .ok r1) (h2 : analyze_memory_tests d2 = .ok r2) :
    r1.score ≤ 50 ∧ r2.score ≤ 100 :=
  ⟨(analyze_cpu_tests_ok d1 r1 h1).2.1, (analyze_memory_tests_ok d2 r2 h2).2.1⟩

theorem C3_witness :
    (⟨"poor", 0, some []⟩ : SubsysResult).score ≤ 50 ∧
    (⟨"poor", 0, some []⟩ : SubsysResult).score ≤ 100 :=
  C3_amended_cpu_memory_bounded emptySubsys emptySubsys _ _ rfl rfl

/-! ## Claim C6 -/

/-- C6, counterexample.  The claim says a text-decode failure on a present
artifact is treated as a failed check and never raises.  The handlers
catch `IOError` only; `UnicodeDecodeError` is a `ValueError`, so a cpu
artifact with undecodable bytes propagates out of the analyzer and out of
`process_report`. -/
theorem C6_counterexample :
    analyze_cpu_tests cpuDecodeDir = .error PyError.unicodeDecodeError ∧
    process_report "T" exReport decodeTree = .error PyError.unicodeDecodeError :=
  ⟨rfl, rfl⟩

/-- C6, amended: an `IOError` while reading a present artifact is caught,
recorded as `'error'`, contributes 0 points, and analysis completes (here
for the cpu analyzer: both files unreadable gives a normal result with
score 0); a text-decode failure, by contrast, raises `UnicodeDecodeError`
which propagates out of the analyzer and `process_report`. -/
theorem C6_amended_io_error_graceful (d : SubsysDir)
    (h1 : dictGet "sysbench_cpu.txt" d.files = some FileData.ioError)
    (h2 : dictGet "stress_ng.txt" d.files = some FileData.ioError) :
    analyze_cpu_tests d =
      .ok ⟨"poor", 0, some [("sysbench", Detail.str "error"),
                            ("stress_ng", Detail.str "error")]⟩ := by
  unfold analyze_cpu_tests fileCheck
  simp only [h1, h2, FileData.read]
  rfl

theorem C6_witness :
    analyze_cpu_tests ioErrCpuDir =
      .ok ⟨"poor", 0, some [("sysbench", Detail.str "error"),
                            ("stress_ng", Detail.str "error")]⟩ :=
  C6_amended_io_error_graceful ioErrCpuDir rfl rfl

/-! ## Claim C8 -/

/-- C8: the memtester check contributes exactly 50 points precisely when
`memtester.txt` is present, readable, and its content contains `PASS` but
not `FAIL`; `stress_ng_memory.txt` contributes 50 when its content
contains `completed`; and a memtester file containing only `PASS` yields
score 50 with status `fair`. -/
theorem C8_memtester_rule (d : SubsysDir) (r : SubsysResult)
    (h : analyze_memory_tests d = .ok r) :
    r.score = (if fileCheckPass d.files "memtester.txt" memtesterPat then 50 else 0) +
      (if fileCheckPass d.files "stress_ng_memory.txt" (containsSub "completed")
        then 50 else 0) ∧
    analyze_memory_tests memPassOnly =
      .ok ⟨"fair", 50, some [("memtester", Detail.str "passed")]⟩ := by
  constructor
  · unfold analyze_memory_tests at h
    cases h1 : fileCheck d.files "memtester.txt" memtesterPat 50 "memtester" "passed" (0, []) with
    | error e => simp only [h1] at h; cases h
    | ok acc1 =>
      simp only [h1] at h
      cases h2 : fileCheck d.files "stress_ng_memory.txt" (containsSub "completed")
          50 "stress_ng" "completed" acc1 with
      | error e => simp only [h2] at h; cases h
      | ok acc2 =>
        simp only [h2] at h
        injection h with h
        subst h
        have b1 := fileCheck_ok_score _ _ _ _ _ _ _ _ h1
        have b2 := fileCheck_ok_score _ _ _ _ _ _ _ _ h2
        simp only at b1
        show acc2.1 = _
        rw [b2, b1]
        omega
  · rfl

theorem C8_witness :
    (⟨"fair", 50, some [("memtester", Detail.str "passed")]⟩ : SubsysResult).score =
      (if fileCheckPass memPassOnly.files "memtester.txt" memtesterPat then 50 else 0) +
      (if fileCheckPass memPassOnly.files "stress_ng_memory.txt" (containsSub "completed")
        then 50 else 0) ∧
    analyze_memory_tests memPassOnly =
      .ok ⟨"fair", 50, some [("memtester", Detail.str "passed")]⟩ :=
  C8_memtester_rule memPassOnly _ rfl

/-! ## Claim C9 -/

/-- C9: the analysis is a deterministic function of the report and the
artifact tree.  The engine-generated timestamp `now` is the only input
that differs between two runs, and it influences nothing but
`processed_at`: `analysis`, `health_score`, `recommendations` (and
`hostname`, `timestamp`, `issues`) agree for any two timestamps. -/
theorem C9_deterministic (now1 now2 : String) (rd : Report) (tree : ArtifactRoot) :
    (process_report now1 rd tree).map
        (fun p => (p.analysis, p.health_score, p.recommendations)) =
      (process_report now2 rd tree).map
        (fun p => (p.analysis, p.health_score, p.recommendations)) ∧
    (process_report now1 rd tree).map (fun p => (p.hostname, p.timestamp, p.issues)) =
      (process_report now2 rd tree).map (fun p => (p.hostname, p.timestamp, p.issues)) := by
  unfold process_report
  cases hpa : perfAnalysisOpt tree <;> simp [hpa, Except.map]

/-! ## Claim C10 -/

/-- Statuses produced by the classifier are one of the three labels and
never `'unknown'`. -/
theorem subsys_result_classified (thG thF : Nat) (r : SubsysResult)
    (hst : r.status = classify thG thF r.score) :
    (r.status = "poor" ∨ r.status = "fair" ∨ r.status = "good") ∧
      r.status ≠ "unknown" := by
  rw [hst]
  refine ⟨?_, classify_ne_unknown _ _ _⟩
  rcases classify_cases thG thF r.score with h | h | h <;> rw [h] <;> tauto

/-- C10: in the aggregate, every subsystem whose directory exists carries
a status among `'poor'`, `'fair'`, `'good'` (never `'unknown'`) and a
`details` key, while a subsystem whose directory is absent carries
exactly the default `{'status': 'unknown', 'score': 0}` with no
`details` key. -/
theorem C10_status_partition (p : PerfDir) (l : List (String × SubsysResult))
    (h : analyze_performance p = .ok l) :
    ((p.cpu = none → dictGet "cpu" l = some unknownResult) ∧
      (∀ d v, p.cpu = some d → dictGet "cpu" l = some v →
        (v.status = "poor" ∨ v.status = "fair" ∨ v.status = "good") ∧
          v.status ≠ "unknown" ∧ v.details ≠ none)) ∧
    ((p.memory = none → dictGet "memory" l = some unknownResult) ∧
      (∀ d v, p.memory = some d → dictGet "memory" l = some v →
        (v.status = "poor" ∨ v.status = "fair" ∨ v.status = "good") ∧
          v.status ≠ "unknown" ∧ v.details ≠ none)) ∧
    ((p.disk = none → dictGet "disk" l = some unknownResult) ∧
      (∀ d v, p.disk = some d → dictGet "disk" l = some v →
        (v.status = "poor" ∨ v.status = "fair" ∨ v.status = "good") ∧
          v.status ≠ "unknown" ∧ v.details ≠ none)) ∧
    ((p.network = none → dictGet "network" l = some unknownResult) ∧
      (∀ d v, p.network = some d → dictGet "network" l = some v →
        (v.status = "poor" ∨ v.status = "fair" ∨ v.status = "good") ∧
          v.status ≠ "unknown" ∧ v.details ≠ none)) := by
  obtain ⟨⟨c1, c2⟩, ⟨m1, m2⟩, ⟨d1, d2⟩, ⟨n1, n2⟩⟩ := analyze_performance_get p l h
  refine ⟨⟨c1, ?_⟩, ⟨m1, ?_⟩, ⟨d1, ?_⟩, ⟨n1, ?_⟩⟩
  · intro d v hd hv
    obtain ⟨r, hr, hget⟩ := c2 d hd
    rw [hget] at hv
    injection hv with hv
    subst hv
    obtain ⟨hst, _, hdet⟩ := analyze_cpu_tests_ok d r hr
    obtain ⟨hs3, hne⟩ := subsys_result_classified 50 25 r hst
    exact ⟨hs3, hne, hdet⟩
  · intro d v hd hv
    obtain ⟨r, hr, hget⟩ := m2 d hd
    rw [hget] at hv
    injection hv with hv
    subst hv
    obtain ⟨hst, _, hdet⟩ := analyze_memory_tests_ok d r hr
    obtain ⟨hs3, hne⟩ := subsys_result_classified 75 50 r hst
    exact ⟨hs3, hne, hdet⟩
  · intro d v hd hv
    obtain ⟨r, hr, hget⟩ := d2 d hd
    rw [hget] at hv
    injection hv with hv
    subst hv
    obtain ⟨hst, hdet⟩ := analyze_disk_tests_ok d r hr
    obtain ⟨hs3, hne⟩ := subsys_result_classified 50 25 r hst
    exact ⟨hs3, hne, hdet⟩
  · intro d v hd hv
    obtain ⟨r, hr, hget⟩ := n2 d hd
    rw [hget] at hv
    injection hv with hv
    subst hv
    obtain ⟨hst, hdet⟩ := analyze_network_tests_ok d r hr
    obtain ⟨hs3, hne⟩ := subsys_result_classified 75 50 r hst
    exact ⟨hs3, hne, hdet⟩

theorem C10_witness :
    (cpuFairResult.status = "poor" ∨ cpuFairResult.status = "fair" ∨
      cpuFairResult.status = "good") ∧
    cpuFairResult.status ≠ "unknown" ∧ cpuFairResult.details ≠ none :=
  (C10_status_partition cpuOnlyPerf cpuOnlyAgg rfl).1.2 cpuSubsysEx cpuFairResult rfl rfl

/-! ## Claim C2 -/

/-- Every one of the four subsystem keys is present in the aggregate. -/
theorem analyze_performance_keys (p : PerfDir) (l : List (String × SubsysResult))
    (h : analyze_performance p = .ok l) :
    (∃ r, dictGet "cpu" l = some r) ∧ (∃ r, dictGet "memory" l = some r) ∧
    (∃ r, dictGet "disk" l = some r) ∧ (∃ r, dictGet "network" l = some r) := by
  obtain ⟨⟨c1, c2⟩, ⟨m1, m2⟩, ⟨d1, d2⟩, ⟨n1, n2⟩⟩ := analyze_performance_get p l h
  refine ⟨?_, ?_, ?_, ?_⟩
  · cases hc : p.cpu with
    | none => exact ⟨_, c1 hc⟩
    | some d =>
      obtain ⟨r, _, hg⟩ := c2 d hc
      exact ⟨r, hg⟩
  · cases hc : p.memory with
    | none => exact ⟨_, m1 hc⟩
    | some d =>
      obtain ⟨r, _, hg⟩ := m2 d hc
      exact ⟨r, hg⟩
  · cases hc : p.disk with
    | none => exact ⟨_, d1 hc⟩
    | some d =>
      obtain ⟨r, _, hg⟩ := d2 d hc
      exact ⟨r, hg⟩
  · cases hc : p.network with
    | none => exact ⟨_, n1 hc⟩
    | some d =>
      obtain ⟨r, _, hg⟩ := n2 d hc
      exact ⟨r, hg⟩

/-- The score a subsystem key contributes in the aggregate. -/
def scoreAt (l : List (String × SubsysResult)) (k : String) : Nat :=
  match dictGet k l with
  | some r => r.score
  | none => 0

/-- Sum of the four subsystem scores in an aggregate. -/
def sumScores (l : List (String × SubsysResult)) : Nat :=
  scoreAt l "cpu" + scoreAt l "memory" + scoreAt l "disk" + scoreAt l "network"

/-- C2, counterexample.  The claim says an untested subsystem contributes
to neither side of the health score, so the score is never lowered by
untested subsystems.  With `system_info` present and a performance tree
containing only a cpu directory (score 25), the code returns 29 — every
absent subsystem still added 18.75 to the denominator — while the same
report without the performance tree scores 100; the claim's shrunken
denominator would have given 67. -/
theorem C2_counterexample :
    healthOf (process_report "T" exReport treeCpuOnly) = 29 ∧
    healthOf (process_report "T" exReport treeNoPerf) = 100 ∧
    ((29 : ℤ) < 100) ∧
    ⌊((25 : ℚ) + 25 / 100 * 18.75) / (25 + 18.75) * 100⌋ = 67 := by
  have hpa : perfAnalysisOpt treeCpuOnly = .ok (some cpuOnlyAgg) := rfl
  have hpb : perfAnalysisOpt treeNoPerf = .ok none := rfl
  have hc : dictGet "cpu" cpuOnlyAgg = some cpuFairResult := rfl
  have hm : dictGet "memory" cpuOnlyAgg = some unknownResult := rfl
  have hd : dictGet "disk" cpuOnlyAgg = some unknownResult := rfl
  have hn : dictGet "network" cpuOnlyAgg = some unknownResult := rfl
  refine ⟨?_, ?_, by norm_num, by norm_num⟩
  · simp only [healthOf, process_report, hpa]
    unfold calculate_health_score healthTotals
    simp only [Option.getD, Option.isSome, List.foldl_cons, List.foldl_nil,
      healthStep, hc, hm, hd, hn, unknownResult, cpuFairResult, if_true]
    norm_num
  · simp only [healthOf, process_report, hpb]
    unfold calculate_health_score healthTotals
    simp only [Option.getD, Option.isSome, List.foldl_cons, List.foldl_nil,
      healthStep, dictGet, if_true]
    norm_num

/-- C2, amended: when the `performance/` subtree exists, all four
subsystems appear in the aggregate, so each contributes 18.75 to the
denominator whether or not its directory existed; an untested subsystem
contributes 0 to the numerator and thus lowers the score, and the final
value is `⌊25 + (sum of the four subsystem scores) · 3∕16⌋`.  Only when
the whole `performance/` subtree is absent does the denominator shrink
(to the system block's 25), giving score 100. -/
theorem C2_amended_full_denominator (p : PerfDir) (l : List (String × SubsysResult))
    (s : SystemBlock) (h : analyze_performance p = .ok l) :
    calculate_health_score ⟨some s, some l⟩ =
      ⌊(25 : ℚ) + (sumScores l : ℚ) * 3 / 16⌋ ∧
    calculate_health_score ⟨some s, none⟩ = 100 := by
  obtain ⟨⟨rc, hc⟩, ⟨rm, hm⟩, ⟨rd2, hd2⟩, ⟨rn, hn⟩⟩ := analyze_performance_keys p l h
  constructor
  · have ht2 : (healthTotals ⟨some s, some l⟩).2 = 100 := by
      unfold healthTotals
      simp only [Option.getD, Option.isSome, List.foldl_cons, List.foldl_nil,
        healthStep, hc, hm, hd2, hn, if_true]
      norm_num
    have ht1 : (healthTotals ⟨some s, some l⟩).1 =
        25 + (sumScores l : ℚ) * 3 / 16 := by
      unfold healthTotals
      simp only [Option.getD, Option.isSome, List.foldl_cons, List.foldl_nil,
        healthStep, hc, hm, hd2, hn, if_true]
      unfold sumScores scoreAt
      rw [hc, hm, hd2, hn]
      push_cast
      ring
    unfold calculate_health_score
    rw [ht1, ht2]
    rw [if_neg (by norm_num)]
    congr 1
    field_simp
    ring
  · have ht : healthTotals ⟨some s, none⟩ = (25, 25) := by
      unfold healthTotals
      simp [healthStep, dictGet]
    unfold calculate_health_score
    rw [ht]
    norm_num

theorem C2_witness :
    calculate_health_score ⟨some exSystemBlock, some cpuOnlyAgg⟩ =
      ⌊(25 : ℚ) + (sumScores cpuOnlyAgg : ℚ) * 3 / 16⌋ ∧
    calculate_health_score ⟨some exSystemBlock, none⟩ = 100 :=
  C2_amended_full_denominator cpuOnlyPerf cpuOnlyAgg exSystemBlock rfl

/-! ## Claim C4 -/

/-- C4, counterexample.  The claim says `health_score` always lies in
[0, 100].  A report whose disk directory holds twelve devices all
passing SMART and fio accumulates disk score 420, and
`int((25 + 420∕100·18.75) ∕ 100 · 100) = 103 > 100`. -/
theorem C4_counterexample :
    healthOf (process_report "T" exReport treeDisk12) = 103 ∧ (100 : ℤ) < 103 := by
  have hpa : perfAnalysisOpt treeDisk12 = .ok (some disk12Agg) := rfl
  have hc : dictGet "cpu" disk12Agg = some unknownResult := rfl
  have hm : dictGet "memory" disk12Agg = some unknownResult := rfl
  have hd : dictGet "disk" disk12Agg = some disk12Result := rfl
  have hn : dictGet "network" disk12Agg = some unknownResult := rfl
  have hsc : disk12Result.score = 420 := rfl
  refine ⟨?_, by norm_num⟩
  simp only [healthOf, process_report, hpa]
  unfold calculate_health_score healthTotals
  simp only [Option.getD, Option.isSome, List.foldl_cons, List.foldl_nil,
    healthStep, hc, hm, hd, hn, hsc, unknownResult, if_true]
  norm_num

/-- C4, amended: the health score returned by `process_report` is always
nonnegative, and it is at most 100 whenever every subsystem score in the
aggregate is at most 100 (which the uncapped disk and network analyzers
can violate on many-device trees, making the health score exceed 100). -/
theorem C4_amended_bounds (now : String) (rd : Report) (tree : ArtifactRoot)
    (p : Processed) (h : process_report now rd tree = .ok p) :
    0 ≤ p.health_score ∧
    ((∀ k v, dictGet k (p.analysis.performance.getD []) = some v → v.score ≤ 100) →
      p.health_score ≤ 100) := by
  obtain ⟨_, hh, _⟩ := process_report_ok now rd tree p h
  rw [hh]
  exact ⟨calculate_health_score_nonneg _, fun hb => calculate_health_score_le _ hb⟩

/-- The record produced for `exReport` over a tree without a
`performance/` subtree. -/
def pNoPerf : Processed :=
  { hostname := "node1"
  , timestamp := "2024-01-01T00:00:00"
  , processed_at := "T"
  , analysis := ⟨some (buildSystemBlock (some exSystemInfo)), none⟩
  , health_score := calculate_health_score ⟨some (buildSystemBlock (some exSystemInfo)), none⟩
  , issues := []
  , recommendations := generate_recommendations ⟨some (buildSystemBlock (some exSystemInfo)), none⟩ }

theorem C4_witness :
    0 ≤ pNoPerf.health_score ∧
    ((∀ k v, dictGet k (pNoPerf.analysis.performance.getD []) = some v → v.score ≤ 100) →
      pNoPerf.health_score ≤ 100) :=
  C4_amended_bounds "T" exReport treeNoPerf pNoPerf rfl

/-! ## Claim C5 -/

/-- Whether any of the four component keys is present in the aggregate
(a counted subsystem). -/
def countedNames (perf : List (String × SubsysResult)) : Bool :=
  ["cpu", "memory", "disk", "network"].any (fun k => (dictGet k perf).isSome)

/-- C5, counterexample.  The claim says the final score is
`round(total_earned ∕ total_possible · 100)`.  With the cpu-only
aggregate the exact ratio is 475∕16 ∕ 100 · 100 = 29.6875, whose nearest
integer is 30, but the code's `int()` truncates to 29. -/
theorem C5_counterexample :
    healthTotals ⟨some exSystemBlock, some cpuOnlyAgg⟩ = (475 / 16, 100) ∧
    calculate_health_score ⟨some exSystemBlock, some cpuOnlyAgg⟩ = 29 ∧
    round ((475 : ℚ) / 16 / 100 * 100) = 30 := by
  have hc : dictGet "cpu" cpuOnlyAgg = some cpuFairResult := rfl
  have hm : dictGet "memory" cpuOnlyAgg = some unknownResult := rfl
  have hd : dictGet "disk" cpuOnlyAgg = some unknownResult := rfl
  have hn : dictGet "network" cpuOnlyAgg = some unknownResult := rfl
  have ht : healthTotals ⟨some exSystemBlock, some cpuOnlyAgg⟩ = (475 / 16, 100) := by
    unfold healthTotals
    simp only [Option.getD, Option.isSome, List.foldl_cons, List.foldl_nil,
      healthStep, hc, hm, hd, hn, unknownResult, cpuFairResult, if_true]
    rw [Prod.mk.injEq]
    constructor <;> norm_num
  refine ⟨ht, ?_, by rw [round_eq]; norm_num⟩
  unfold calculate_health_score
  rw [ht]
  norm_num

/-- C5, amended: whenever at least one component is counted (the system
block exists or some subsystem key is in the aggregate), the final score
is `⌊total_earned ∕ total_possible · 100⌋` — truncation toward zero, not
rounding to nearest — and it is 0 when nothing was counted at all. -/
theorem C5_truncation (a : Analysis) :
    ((a.system.isSome = true ∨ countedNames (a.performance.getD []) = true) →
      calculate_health_score a = ⌊(healthTotals a).1 / (healthTotals a).2 * 100⌋) ∧
    ((a.system = none ∧ countedNames (a.performance.getD []) = false) →
      calculate_health_score a = 0) := by
  constructor
  · intro h
    have hpos : 0 < (healthTotals a).2 := by
      rcases h with hs | hcnt
      · unfold healthTotals
        calc (0 : ℚ) < (if a.system.isSome then ((25 : ℚ), (25 : ℚ)) else (0, 0)).2 := by
              rw [if_pos hs]; norm_num
          _ ≤ _ := foldl_healthStep_snd_mono _ _ _
      · apply foldl_healthStep_snd_pos
        · split <;> norm_num
        · simp only [countedNames, List.any_eq_true] at hcnt
          exact hcnt
    unfold calculate_health_score
    rw [if_neg (ne_of_gt hpos)]
  · rintro ⟨hs, hcnt⟩
    have hall : ∀ c ∈ ["cpu", "memory", "disk", "network"],
        dictGet c (a.performance.getD []) = none := by
      intro c hcmem
      simp only [countedNames, List.any_eq_false] at hcnt
      have := hcnt c hcmem
      exact Option.not_isSome_iff_eq_none.mp (by simp [this])
    have ht : healthTotals a = (0, 0) := by
      unfold healthTotals
      rw [if_neg (by simp [hs]), foldl_healthStep_of_none _ _ _ hall]
    unfold calculate_health_score
    rw [ht]
    norm_num

theorem C5_witness :
    calculate_health_score ⟨some exSystemBlock, some cpuOnlyAgg⟩ =
      ⌊(healthTotals ⟨some exSystemBlock, some cpuOnlyAgg⟩).1 /
        (healthTotals ⟨some exSystemBlock, some cpuOnlyAgg⟩).2 * 100⌋ ∧
    calculate_health_score ⟨none, none⟩ = 0 :=
  ⟨(C5_truncation ⟨some exSystemBlock, some cpuOnlyAgg⟩).1 (Or.inl rfl),
   (C5_truncation ⟨none, none⟩).2 ⟨rfl, rfl⟩⟩

/-! ## Claim C7 -/

/-- The four subsystem keys in their fixed order. -/
def subsystemNames : List String := ["cpu", "memory", "disk", "network"]

/-- The fixed advisory attached to each subsystem. -/
def adviceFor : String → String
  | "cpu" => cpuAdvice
  | "memory" => memoryAdvice
  | "disk" => diskAdvice
  | "network" => networkAdvice
  | _ => ""

/-- The subsystems whose status in the aggregate equals `'poor'`, in the
fixed cpu, memory, disk, network order. -/
def poorNames (a : Analysis) : List String :=
  subsystemNames.filter
    (fun n => subsystemStatus (a.performance.getD []) n == some "poor")

/-- C7: the recommendations list is exactly one fixed advisory per
subsystem whose status is `'poor'`, in the fixed cpu, memory, disk,
network order, and the generic healthy message appears exactly when no
subsystem-specific advisory was generated. -/
theorem C7_recommendation_contract (a : Analysis) :
    generate_recommendations a =
      (if (poorNames a).isEmpty then [healthyAdvice]
        else (poorNames a).map adviceFor) ∧
    (healthyAdvice ∈ generate_recommendations a ↔ poorNames a = []) := by
  by_cases hc : subsystemStatus (a.performance.getD []) "cpu" = some "poor" <;>
    by_cases hm : subsystemStatus (a.performance.getD []) "memory" = some "poor" <;>
      by_cases hd : subsystemStatus (a.performance.getD []) "disk" = some "poor" <;>
        by_cases hn : subsystemStatus (a.performance.getD []) "network" = some "poor" <;>
          simp [generate_recommendations, poorNames, subsystemNames, adviceFor,
            hc, hm, hd, hn, cpuAdvice, memoryAdvice, diskAdvice, networkAdvice,
            healthyAdvice]
